import Mathlib

/-!
Verification of the MCP_multiagent repository's tool-invocation layer.

The definitions below are a shallow embedding of:
  * `src/mcp_server/app.py`   — the FastAPI tool dispatcher (`call_tool`),
    the tool registry (`TOOL_REGISTRY`), the SSE event queue
    (`event_queue` / `stream_events`);
  * `src/mcp_server/database.py` — the storage adapter
    (`get_customer`, `list_customers`, `modify_customer`, `new_ticket`,
    `customer_history`);
  * `src/sdk/types.py`        — the task/message data model
    (`TaskState`, `TaskStatus`, `TaskStatusUpdateEvent`).

JSON/Python values crossing the HTTP boundary are modelled by `Value`.
Python's `int(...)` / `str(...)` coercions and truthiness are modelled by
`pyInt`, `pyStr`, `truthy`.  The SQLite store is modelled as an in-memory
record `DB`; `CURRENT_TIMESTAMP` is the field `DB.now` and the ticket
AUTOINCREMENT counter is `DB.nextTicketId`.
-/

/-- A JSON-ish Python value as found in `ToolInvocation.arguments`. -/
inductive Value where
  | vnull
  | vint (n : Int)
  | vbool (b : Bool)
  | vstr (s : String)
  | vobj (fields : List (String × Value))
deriving Repr

/-- Python's `int(...)` string parsing: optional surrounding whitespace,
optional sign, a nonempty digit run.  (Underscore digit separators are not
modelled.) -/
def pyParseInt (s : String) : Option Int :=
  match (s.toList.dropWhile Char.isWhitespace).reverse.dropWhile Char.isWhitespace
      |>.reverse with
  | '-' :: rest => (digits? rest).map (fun n => -(n : Int))
  | '+' :: rest => (digits? rest).map (fun n => (n : Int))
  | cs => (digits? cs).map (fun n => (n : Int))
where digits? (cs : List Char) : Option Nat :=
  if cs.isEmpty then none
  else if cs.all Char.isDigit then
    some (cs.foldl (fun n c => n * 10 + (c.toNat - 48)) 0)
  else none

/-- Failure outcomes of a dispatcher call.  `http 404 _` is a raised
`HTTPException(status_code=404)`; the remaining constructors are uncaught
Python exceptions (surfaced by FastAPI as internal server errors). -/
inductive Err where
  | http (status : Nat) (detail : String)
  | typeError (msg : String)
  | valueError (msg : String)
  | integrityError (msg : String)
  | programmingError (msg : String)
deriving Repr, DecidableEq

/-- Python `int(x)` on an argument value. -/
def pyInt : Value → Except Err Int
  | .vint n => .ok n
  | .vbool b => .ok (if b then 1 else 0)
  | .vstr s =>
    match pyParseInt s with
    | some n => .ok n
    | none => .error (.valueError ("invalid literal for int() with base 10: " ++ s))
  | .vnull => .error (.typeError "int() argument cannot be NoneType")
  | .vobj _ => .error (.typeError "int() argument cannot be dict")

/-- Python `str(x)`: total, never fails.  (`str` of a dict is abbreviated;
no claim inspects that case.) -/
def pyStr : Value → String
  | .vnull => "None"
  | .vint n => toString n
  | .vbool b => if b then "True" else "False"
  | .vstr s => s
  | .vobj _ => "{...}"

/-- Python truthiness of a value. -/
def truthy : Value → Bool
  | .vnull => false
  | .vint n => n != 0
  | .vbool b => b
  | .vstr s => s ≠ ""
  | .vobj fields => !fields.isEmpty

/-- `args.get(k)`: a missing key yields Python `None`. -/
def getArg (args : List (String × Value)) (k : String) : Value :=
  (args.lookup k).getD .vnull

/-- `args.get(k, default)`. -/
def getArgD (args : List (String × Value)) (k : String) (d : Value) : Value :=
  (args.lookup k).getD d

/-! ## The storage adapter (`src/mcp_server/database.py`) -/

/-- A row of the `customers` table.  `name`/`email`/`status` are `TEXT NOT
NULL` columns (schema in `src/common/db.py`, mirrored by `database_setup`),
so after any successful write they hold text: sqlite3 refuses to bind
dict values, a NULL violates the constraint, and TEXT affinity converts a
bound numeric to its text form before storage (see `bindText`). -/
structure Customer where
  id : Int
  name : String
  email : String
  status : String
  created_at : String
deriving Repr, DecidableEq

/-- A row of the `tickets` table. -/
structure Ticket where
  id : Int
  customer_id : Int
  issue : String
  priority : String
  status : String
  created_at : String
deriving Repr, DecidableEq

/-- A row of the `interactions` table. -/
structure Interaction where
  id : Int
  customer_id : Int
  channel : String
  notes : String
  created_at : String
deriving Repr, DecidableEq

/-- The SQLite database state.  `nextTicketId` is the tickets AUTOINCREMENT
counter; `now` is the value `CURRENT_TIMESTAMP` takes for an insert. -/
structure DB where
  customers : List Customer
  tickets : List Ticket
  interactions : List Interaction
  nextTicketId : Int
  now : String
deriving Repr

/-- `get_customer`: `SELECT ... FROM customers WHERE id = ?` (first match). -/
def get_customer (db : DB) (customer_id : Int) : Option Customer :=
  db.customers.find? (fun c => c.id == customer_id)

/-- sqlite3 parameter binding into a TEXT-affinity column: a str binds as
itself, an int (and a bool, which Python binds as 0/1) is converted to its
text form by TEXT affinity, `None` binds as SQL NULL, and a dict is not a
supported binding type — sqlite3 raises `ProgrammingError`. -/
def bindText : Value → Except Err (Option String)
  | .vstr s => .ok (some s)
  | .vint n => .ok (some (toString n))
  | .vbool b => .ok (some (if b then "1" else "0"))
  | .vnull => .ok none
  | .vobj _ => .error (.programmingError "Error binding parameter: type is not supported")

/-- Bind every UPDATE parameter in order; the first unsupported value
raises before the statement runs. -/
def bindParams : List (String × Value) → Except Err (List (String × Option String))
  | [] => .ok []
  | (k, v) :: rest =>
    match bindText v with
    | .error e => .error e
    | .ok s =>
      match bindParams rest with
      | .error e => .error e
      | .ok r => .ok ((k, s) :: r)

/-- Execute the UPDATE: assigning NULL to one of the `NOT NULL` columns
raises `IntegrityError` naming the column. -/
def execNotNull : List (String × Option String) → Except Err (List (String × String))
  | [] => .ok []
  | (k, none) :: _ =>
    .error (.integrityError ("NOT NULL constraint failed: customers." ++ k))
  | (k, some v) :: rest =>
    match execNotNull rest with
    | .error e => .error e
    | .ok r => .ok ((k, v) :: r)

/-- The UPDATE statement's binding-then-execution pipeline: all parameters
are bound first (dicts raise `ProgrammingError`), then execution checks the
`NOT NULL` constraints (`IntegrityError`); on success every column receives
its TEXT-affinity text. -/
def bindUpdates (ups : List (String × Value)) : Except Err (List (String × String)) :=
  match bindParams ups with
  | .error e => .error e
  | .ok bound => execNotNull bound

/-- `list_customers`: optional `WHERE status = ?` filter, then `LIMIT ?`
(a negative SQLite LIMIT means no limit).  The status parameter goes
through sqlite3 binding: a dict raises, NULL matches no row, and a bound
numeric is compared under the column's TEXT affinity as text. -/
def list_customers (db : DB) (status : Value) (limit : Int) : Except Err (List Customer) :=
  if truthy status then
    match bindText status with
    | .error e => .error e
    | .ok b =>
      let rows := db.customers.filter
        (fun c => match b with | some s => c.status == s | none => false)
      .ok (if limit < 0 then rows else rows.take limit.toNat)
  else
    .ok (if limit < 0 then db.customers else db.customers.take limit.toNat)

/-- The columns `modify_customer` is allowed to update. -/
def allowedField (k : String) : Bool :=
  k == "name" || k == "email" || k == "status"

/-- One `SET col = ?` assignment of an already-bound text value. -/
def applyChange (c : Customer) (kv : String × String) : Customer :=
  if kv.1 == "name" then { c with name := kv.2 }
  else if kv.1 == "email" then { c with email := kv.2 }
  else if kv.1 == "status" then { c with status := kv.2 }
  else c

/-- The `SET` assignments of one UPDATE, applied in order. -/
def applyChanges (c : Customer) (updates : List (String × String)) : Customer :=
  updates.foldl applyChange c

/-- `modify_customer`: keep only allowed fields; with nothing to update
return the current record; otherwise the existence check (`SELECT 1`)
runs first, then the UPDATE binds and executes (`bindUpdates` — so a dict
value raises `ProgrammingError` and a NULL raises `IntegrityError`, both
uncaught), and the row is re-read.  Returns the (possibly missing) record
and the new DB state, or the raised sqlite3 error. -/
def modify_customer (db : DB) (customer_id : Int) (changes : List (String × Value)) :
    Except Err (Option Customer × DB) :=
  let updates := changes.filter (fun kv => allowedField kv.1)
  if updates.isEmpty then .ok (get_customer db customer_id, db)
  else
    match db.customers.find? (fun c => c.id == customer_id) with
    | none => .ok (none, db)
    | some _ =>
      match bindUpdates updates with
      | .error e => .error e
      | .ok bound =>
        let customers' := db.customers.map
          (fun c => if c.id == customer_id then applyChanges c bound else c)
        let db' := { db with customers := customers' }
        .ok (get_customer db' customer_id, db')

/-- `new_ticket`: INSERT with status literally `'open'`, then re-read the
row.  The customers foreign key is enforced (`PRAGMA foreign_keys = ON`;
the schema — created by `database_setup`, whose file is not in `src/` — is
modelled from the spec's "customer id must reference an existing Customer"
and the identical schema in `src/common/db.py`). -/
def new_ticket (db : DB) (customer_id : Int) (issue priority : String) :
    Except Err (Ticket × DB) :=
  if db.customers.any (fun c => c.id == customer_id) then
    let t : Ticket :=
      { id := db.nextTicketId, customer_id := customer_id, issue := issue,
        priority := priority, status := "open", created_at := db.now }
    .ok (t, { db with tickets := db.tickets ++ [t], nextTicketId := db.nextTicketId + 1 })
  else
    .error (.integrityError "FOREIGN KEY constraint failed")

/-- Newest-first comparison on `created_at` (SQLite `ORDER BY created_at DESC`). -/
def newestFirst (a b : Interaction) : Prop :=
  b.created_at ≤ a.created_at

instance : DecidableRel newestFirst := fun a b =>
  inferInstanceAs (Decidable (b.created_at ≤ a.created_at))

/-- `customer_history`: the customer's interactions ordered newest-first. -/
def customer_history (db : DB) (customer_id : Int) : List Interaction :=
  List.insertionSort newestFirst
    (db.interactions.filter (fun i => i.customer_id == customer_id))

/-! ## The tool registry and dispatcher (`src/mcp_server/app.py`) -/

/-- One entry of `TOOL_REGISTRY`: name, description, and the input schema's
property types and required list. -/
structure ToolDef where
  name : String
  description : String
  properties : List (String × String)
  required : List String
deriving Repr, DecidableEq

/-- `TOOL_REGISTRY`, as returned by `/tools/list`. -/
def TOOL_REGISTRY : List ToolDef :=
  [ { name := "get_customer",
      description := "Retrieve a single customer using its ID.",
      properties := [("customer_id", "integer")],
      required := ["customer_id"] },
    { name := "list_customers",
      description := "Return a list of customers, optionally filtered by status.",
      properties := [("status", "string"), ("limit", "integer")],
      required := [] },
    { name := "update_customer",
      description := "Modify customer fields such as name, email, or status.",
      properties := [("customer_id", "integer"), ("data", "object")],
      required := ["customer_id", "data"] },
    { name := "create_ticket",
      description := "Open a new support ticket for a customer.",
      properties := [("customer_id", "integer"), ("issue", "string"), ("priority", "string")],
      required := ["customer_id", "issue", "priority"] },
    { name := "get_customer_history",
      description := "Retrieve the interaction history for a customer.",
      properties := [("customer_id", "integer")],
      required := ["customer_id"] } ]

/-- A request body of `/tools/call` (`ToolInvocation`). -/
structure ToolInvocation where
  name : String
  arguments : List (String × Value)
deriving Repr

/-- One event enqueued on `event_queue`; the optional fields are the
kind-specific dict entries the dispatcher attaches. -/
structure Event where
  type : String
  tool : String
  customer_id : Option Int := none
  count : Option Nat := none
  ticket_id : Option Int := none
deriving Repr, DecidableEq

/-- The successful payload of `/tools/call` (`{"result": ...}`). -/
inductive Payload where
  | customer (c : Customer)
  | customers (cs : List Customer)
  | ticket (t : Ticket)
  | history (hs : List Interaction)
deriving Repr

/-- Outcome of one dispatcher call: the events enqueued during the call
(the queue survives a raised exception) and either an error or the result
payload together with the new database state. -/
abbrev CallResult := List Event × Except Err (Payload × DB)

/-- `call_tool` (`POST /tools/call`), branch for branch after the source. -/
def call_tool (db : DB) (request : ToolInvocation) : CallResult :=
  let tool := request.name
  let args := request.arguments
  if tool == "get_customer" then
    match pyInt (getArg args "customer_id") with
    | .error e => ([], .error e)
    | .ok customer_id =>
      match get_customer db customer_id with
      | none => ([], .error (.http 404 "Customer does not exist"))
      | some customer =>
        ([{ type := "audit", tool := tool, customer_id := some customer.id }],
         .ok (.customer customer, db))
  else if tool == "list_customers" then
    let status := getArg args "status"
    match pyInt (getArgD args "limit" (.vint 20)) with
    | .error e => ([], .error e)
    | .ok limit =>
      match list_customers db status limit with
      | .error e => ([], .error e)
      | .ok records =>
        ([{ type := "audit", tool := tool, count := some records.length }],
         .ok (.customers records, db))
  else if tool == "update_customer" then
    match pyInt (getArg args "customer_id") with
    | .error e => ([], .error e)
    | .ok cid =>
      let patchVal := getArg args "data"
      match (if truthy patchVal then patchVal else .vobj []) with
      | .vobj patch =>
        match modify_customer db cid patch with
        | .error e => ([], .error e)
        | .ok (none, _) => ([], .error (.http 404 "Customer not found for update"))
        | .ok (some updated, db') =>
          ([{ type := "update", tool := tool, customer_id := some updated.id }],
           .ok (.customer updated, db'))
      | _ => ([], .error (.typeError "changes.items(): value is not a dict"))
  else if tool == "create_ticket" then
    match pyInt (getArg args "customer_id") with
    | .error e => ([], .error e)
    | .ok cid =>
      let issue := pyStr (getArg args "issue")
      let priority := pyStr (getArg args "priority")
      match new_ticket db cid issue priority with
      | .error e => ([], .error e)
      | .ok (ticket, db') =>
        ([{ type := "ticket", tool := tool, ticket_id := some ticket.id }],
         .ok (.ticket ticket, db'))
  else if tool == "get_customer_history" then
    match pyInt (getArg args "customer_id") with
    | .error e => ([], .error e)
    | .ok cid =>
      let history := customer_history db cid
      ([{ type := "history", tool := tool, count := some history.length }],
       .ok (.history history, db))
  else
    ([], .error (.http 404 ("Unknown tool: " ++ tool)))

/-- `true` on the success branch of an `Except`. -/
def okb : Except Err (Payload × DB) → Bool
  | .ok _ => true
  | .error _ => false

/-! ## Sample data used by witnesses and counterexamples -/

/-- The seeded customer from the spec's scenario (§8). -/
def ana : Customer :=
  { id := 1, name := "Ana Customer", email := "ana@example.com",
    status := "active", created_at := "2024-01-01 00:00:00" }

/-- A small concrete store: one customer, no tickets, no interactions. -/
def db0 : DB :=
  { customers := [ana], tickets := [], interactions := [],
    nextTicketId := 1, now := "2024-06-01 12:00:00" }

/-- The event `type` string each tool's branch attaches (`"audit"` for the
two reads, `"update"`, `"ticket"` — the spec's *ticket-created* — and
`"history"` — the spec's *history-read*). -/
def kindOfTool (tool : String) : String :=
  if tool == "get_customer" then "audit"
  else if tool == "list_customers" then "audit"
  else if tool == "update_customer" then "update"
  else if tool == "create_ticket" then "ticket"
  else if tool == "get_customer_history" then "history"
  else ""

/-! ## The task/message data model (`src/sdk/types.py`) -/

/-- `TaskState`: lifecycle states for asynchronous tasks. -/
inductive TaskState where
  | running
  | completed
  | canceled
deriving Repr, DecidableEq

/-- `TaskStatus`: a task's current state (the optional output `Message` is
irrelevant to the claims and kept abstract as an optional string id). -/
structure TaskStatus where
  state : TaskState
  message : Option String := none
deriving Repr, DecidableEq

/-- `TaskStatusUpdateEvent`: event pushed when a task reaches a new state. -/
structure TaskStatusUpdateEvent where
  taskId : String
  contextId : String
  status : TaskStatus
  final : Bool
deriving Repr, DecidableEq

/-- A terminal task state (spec §4.4: `completed` and `canceled` are
terminal, `running` is not). -/
def TaskState.isTerminal : TaskState → Bool
  | .running => false
  | .completed => true
  | .canceled => true

/-- Modelled from the spec: the repository contains no producer of
`TaskStatusUpdateEvent` under `src/` (`src/sdk/types.py` only declares the
model and the callers are absent), so the producer is modelled from spec
§4.4: "The `final` flag on a status-update event must be exactly `true`
iff the new state is terminal." -/
def makeStatusUpdateEvent (taskId contextId : String) (status : TaskStatus) :
    TaskStatusUpdateEvent :=
  { taskId := taskId, contextId := contextId, status := status,
    final := status.state.isTerminal }

/-! ## The SSE event queue (`event_queue` / `stream_events`) -/

/-- The single shared `asyncio.Queue` of `app.py`, FIFO. -/
structure QueueState where
  queue : List Event
deriving Repr, DecidableEq

/-- `enqueue_event`: `await event_queue.put(payload)`. -/
def enqueue_event (s : QueueState) (e : Event) : QueueState :=
  { queue := s.queue ++ [e] }

/-- One `await event_queue.get()` performed by some subscriber's
`stream_events` generator: the head event is removed from the shared queue
and yielded to that subscriber only. -/
def queueGet (s : QueueState) : Option (Event × QueueState) :=
  match s.queue with
  | [] => none
  | e :: rest => some (e, { queue := rest })

/-- Run a schedule of `get()` calls, each attributed to the subscriber
index that wins it, starting from queue state `s`.  Returns what each of
the `k` subscribers received, in order. -/
def deliverRun (k : Nat) (s : QueueState) : List (Fin k) → (Fin k → List Event)
  | [] => fun _ => []
  | i :: rest =>
    match queueGet s with
    | none => fun _ => []
    | some (e, s') =>
      fun j => (if j = i then [e] else []) ++ deliverRun k s' rest j

/-- A pair of distinct events used to exercise the queue model. -/
def evA : Event := { type := "audit", tool := "get_customer", customer_id := some 1 }

/-- The database state after the UPDATE statement of `modify_customer`. -/
def updatedDB (db : DB) (cid : Int) (ups : List (String × String)) : DB :=
  let customers' := db.customers.map fun c => if c.id == cid then applyChanges c ups else c
  { db with customers := customers' }

/-- The `update_customer` invocation for customer `cid` with data object
`fields`. -/
def updReq (cid : Int) (fields : List (String × Value)) : ToolInvocation :=
  { name := "update_customer",
    arguments := [("customer_id", .vint cid), ("data", .vobj fields)] }

/-! ## C1: one event per successful call, none on failure -/

/-- C1: every invocation of `call_tool` enqueues exactly one event when it
succeeds and no event at all when it fails (unknown tool, bad argument,
missing entity, or storage error). -/
theorem c1_one_event_iff_success (db : DB) (req : ToolInvocation) :
    (call_tool db req).1.length = (okb (call_tool db req).2).toNat := by
  unfold call_tool
  dsimp only
  repeat' split
  all_goals rfl

/-! ## C7: unknown tool fails with a 404 and no dispatch -/

/-- C7: an invocation whose tool name is absent from `TOOL_REGISTRY` fails
with the 404 `Unknown tool` error, touches nothing, and enqueues no event;
the dispatcher is single-pass, so the request is never retried. -/
theorem c7_unknown_tool (db : DB) (req : ToolInvocation)
    (h : req.name ∉ TOOL_REGISTRY.map ToolDef.name) :
    call_tool db req = ([], .error (.http 404 ("Unknown tool: " ++ req.name))) := by
  simp only [TOOL_REGISTRY, List.map_cons, List.map_nil, List.mem_cons,
    List.not_mem_nil, or_false, not_or] at h
  obtain ⟨h1, h2, h3, h4, h5⟩ := h
  unfold call_tool
  simp [h1, h2, h3, h4, h5]

theorem c7_unknown_tool_witness :
    call_tool db0 { name := "frobnicate", arguments := [] } =
      ([], .error (.http 404 ("Unknown tool: " ++ "frobnicate"))) :=
  c7_unknown_tool db0 _ (by decide)

/-! ## C8: the four event kinds, determined by the tool -/

/-- C8: every event the dispatcher enqueues carries the kind determined by
the invoked tool, and that kind is one of the four in the data model
(audit, update, ticket-created — string `"ticket"` — and history-read —
string `"history"`). -/
theorem c8_event_kind_of_tool (db : DB) (req : ToolInvocation) :
    ((call_tool db req).1.all
      (fun e => e.type == kindOfTool req.name &&
        ["audit", "update", "ticket", "history"].contains e.type)) = true := by
  unfold call_tool kindOfTool
  dsimp only
  repeat' split
  all_goals rfl

/-- C9: every produced status-update event has `final = true` exactly when
the new state is terminal (`completed` or `canceled`); in particular no
event pairs `final = true` with `running`, or `final = false` with a
terminal state. -/
theorem c9_final_iff_terminal (taskId contextId : String) (status : TaskStatus) :
    ((makeStatusUpdateEvent taskId contextId status).final = true ↔
      (status.state = .completed ∨ status.state = .canceled)) ∧
    ¬((makeStatusUpdateEvent taskId contextId status).final = true ∧
      status.state = .running) ∧
    ¬((makeStatusUpdateEvent taskId contextId status).final = false ∧
      (status.state = .completed ∨ status.state = .canceled)) := by
  cases h : status.state <;>
    simp [makeStatusUpdateEvent, TaskState.isTerminal, h]

/-- C2 (counterexample-style evaluation): with two subscribers attached
before a publish, the single shared queue delivers the published event to
exactly one of them — the scheduled winner receives `[evA]`, the other
subscriber receives `[]`, although both were subscribed before the event
was published.  Broadcast semantics would deliver `evA` to both. -/
theorem c2_single_queue_not_broadcast :
    (deliverRun 2 (enqueue_event { queue := [] } evA) [0, 1] 0 = [evA] ∧
     deliverRun 2 (enqueue_event { queue := [] } evA) [0, 1] 1 = []) ∧
    ¬(deliverRun 2 (enqueue_event { queue := [] } evA) [0, 1] 0 = [evA] ∧
      deliverRun 2 (enqueue_event { queue := [] } evA) [0, 1] 1 = [evA]) := by
  decide

/-! ## C5: created tickets are always "open" -/

/-- C5: whenever a `create_ticket` invocation succeeds, the returned record
has `status = "open"` — whatever the caller put in `arguments`, including
any `status` value — and it is the full stored row: the storage-assigned id
(the AUTOINCREMENT counter) and the insert timestamp, appended to the
tickets table. -/
theorem c5_ticket_status_open (db : DB) (args : List (String × Value))
    (evs : List Event) (t : Ticket) (db' : DB)
    (h : call_tool db { name := "create_ticket", arguments := args } =
      (evs, .ok (.ticket t, db'))) :
    t.status = "open" ∧ t.id = db.nextTicketId ∧ t.created_at = db.now ∧
      db'.tickets = db.tickets ++ [t] := by
  unfold call_tool at h
  dsimp only at h
  rw [if_neg (by decide), if_neg (by decide), if_neg (by decide),
    if_pos (by decide)] at h
  cases hpy : pyInt (getArg args "customer_id") with
  | error e => rw [hpy] at h; simp at h
  | ok cid =>
    rw [hpy] at h
    unfold new_ticket at h
    dsimp only at h
    by_cases hex : (db.customers.any (fun c => c.id == cid)) = true
    · rw [if_pos hex] at h
      dsimp only at h
      simp only [Prod.mk.injEq, Except.ok.injEq, Payload.ticket.injEq] at h
      obtain ⟨-, h2, h3⟩ := h
      subst h2
      subst h3
      exact ⟨rfl, rfl, rfl, rfl⟩
    · rw [if_neg hex] at h
      simp at h

theorem c5_ticket_status_open_witness :
    ({ id := 1, customer_id := 1, issue := "billing", priority := "high",
       status := "open", created_at := "2024-06-01 12:00:00" } : Ticket).status = "open" ∧
    ({ id := 1, customer_id := 1, issue := "billing", priority := "high",
       status := "open", created_at := "2024-06-01 12:00:00" } : Ticket).id =
      db0.nextTicketId ∧
    ({ id := 1, customer_id := 1, issue := "billing", priority := "high",
       status := "open", created_at := "2024-06-01 12:00:00" } : Ticket).created_at =
      db0.now ∧
    ({ customers := [ana],
       tickets := [{ id := 1, customer_id := 1, issue := "billing", priority := "high",
                     status := "open", created_at := "2024-06-01 12:00:00" }],
       interactions := [], nextTicketId := 2,
       now := "2024-06-01 12:00:00" } : DB).tickets =
      db0.tickets ++ [{ id := 1, customer_id := 1, issue := "billing", priority := "high",
                        status := "open", created_at := "2024-06-01 12:00:00" }] :=
  c5_ticket_status_open db0
    [("customer_id", .vint 1), ("issue", .vstr "billing"),
     ("priority", .vstr "high"), ("status", .vstr "closed")]
    [{ type := "ticket", tool := "create_ticket", ticket_id := some 1 }] _ _ rfl

/-! ## C6: history is the customer's interactions, newest first -/

/-- C6: for an existing customer, `get_customer_history` succeeds with
exactly the customer's interaction rows, ordered newest-first on
`created_at`, and with an empty list — not an error — when the customer
has no interactions. -/
theorem c6_history_newest_first (db : DB) (cid : Int)
    (_hex : ∃ c ∈ db.customers, c.id = cid) :
    ∃ hs : List Interaction,
      call_tool db { name := "get_customer_history",
                     arguments := [("customer_id", .vint cid)] } =
        ([{ type := "history", tool := "get_customer_history", count := some hs.length }],
         .ok (.history hs, db)) ∧
      hs.Sorted newestFirst ∧
      hs.Perm (db.interactions.filter (fun i => i.customer_id == cid)) ∧
      (db.interactions.filter (fun i => i.customer_id == cid) = [] → hs = []) := by
  refine ⟨customer_history db cid, rfl, ?_, ?_, ?_⟩
  · haveI : IsTotal Interaction newestFirst :=
      ⟨fun a b => le_total b.created_at a.created_at⟩
    haveI : IsTrans Interaction newestFirst :=
      ⟨fun _ _ _ h1 h2 => le_trans h2 h1⟩
    exact List.sorted_insertionSort _ _
  · exact List.perm_insertionSort _ _
  · intro h
    simp [customer_history, h]

theorem c6_history_newest_first_witness :
    ∃ hs : List Interaction,
      call_tool db0 { name := "get_customer_history",
                      arguments := [("customer_id", .vint 1)] } =
        ([{ type := "history", tool := "get_customer_history", count := some hs.length }],
         .ok (.history hs, db0)) ∧
      hs.Sorted newestFirst ∧
      hs.Perm (db0.interactions.filter (fun i => i.customer_id == 1)) ∧
      (db0.interactions.filter (fun i => i.customer_id == 1) = [] → hs = []) :=
  c6_history_newest_first db0 1 ⟨ana, by simp [db0], rfl⟩

/-! ## C10: no existence check on get_customer_history -/

/-- C10: `get_customer_history` never checks that the customer exists: for
a `customer_id` absent from the store (with referential integrity, so no
interaction rows carry it either) the invocation still succeeds with an
empty list and enqueues one `history` event with `count = 0`. -/
theorem c10_history_absent_customer (db : DB) (cid : Int)
    (hfk : ∀ i ∈ db.interactions, ∃ c ∈ db.customers, c.id = i.customer_id)
    (habs : ∀ c ∈ db.customers, c.id ≠ cid) :
    call_tool db { name := "get_customer_history",
                   arguments := [("customer_id", .vint cid)] } =
      ([{ type := "history", tool := "get_customer_history", count := some 0 }],
       .ok (.history [], db)) := by
  have hfilter : db.interactions.filter (fun i => i.customer_id == cid) = [] := by
    rw [List.filter_eq_nil_iff]
    intro i hi
    obtain ⟨c, hc, hcid⟩ := hfk i hi
    have hne := habs c hc
    simp only [beq_iff_eq]
    omega
  have h2 : customer_history db cid = [] := by
    simp [customer_history, hfilter]
  have hmain : call_tool db { name := "get_customer_history",
                              arguments := [("customer_id", .vint cid)] } =
      ([{ type := "history", tool := "get_customer_history",
          count := some (customer_history db cid).length }],
       .ok (.history (customer_history db cid), db)) := rfl
  rw [hmain, h2]
  rfl

theorem c10_history_absent_customer_witness :
    call_tool db0 { name := "get_customer_history",
                    arguments := [("customer_id", .vint 2)] } =
      ([{ type := "history", tool := "get_customer_history", count := some 0 }],
       .ok (.history [], db0)) :=
  c10_history_absent_customer db0 2 (by simp [db0])
    (by intro c hc; simp [db0] at hc; subst hc; simp [ana])

/-! ## C4: update_customer applies only name/email/status -/

theorem applyChange_id (c : Customer) (kv : String × String) :
    (applyChange c kv).id = c.id ∧ (applyChange c kv).created_at = c.created_at := by
  unfold applyChange
  repeat' split
  all_goals exact ⟨rfl, rfl⟩

theorem applyChanges_id (ups : List (String × String)) (c : Customer) :
    (applyChanges c ups).id = c.id ∧ (applyChanges c ups).created_at = c.created_at := by
  induction ups generalizing c with
  | nil => exact ⟨rfl, rfl⟩
  | cons kv rest ih =>
    have hstep : applyChanges c (kv :: rest) = applyChanges (applyChange c kv) rest := rfl
    rw [hstep]
    obtain ⟨h1, h2⟩ := ih (applyChange c kv)
    obtain ⟨h3, h4⟩ := applyChange_id c kv
    exact ⟨h1.trans h3, h2.trans h4⟩

theorem applyChange_name_of_ne (c : Customer) (kv : String × String) (h : kv.1 ≠ "name") :
    (applyChange c kv).name = c.name := by
  unfold applyChange
  repeat' split
  all_goals first | rfl | simp_all

theorem applyChange_email_of_ne (c : Customer) (kv : String × String) (h : kv.1 ≠ "email") :
    (applyChange c kv).email = c.email := by
  unfold applyChange
  repeat' split
  all_goals first | rfl | simp_all

theorem applyChange_status_of_ne (c : Customer) (kv : String × String) (h : kv.1 ≠ "status") :
    (applyChange c kv).status = c.status := by
  unfold applyChange
  repeat' split
  all_goals first | rfl | simp_all

theorem applyChanges_lookup_name (ups : List (String × String)) (c : Customer)
    (hnd : (ups.map Prod.fst).Nodup) :
    (applyChanges c ups).name = (ups.lookup "name").getD c.name := by
  revert hnd
  induction ups generalizing c with
  | nil => intro _; rfl
  | cons kv rest ih =>
    intro hnd
    obtain ⟨k, v⟩ := kv
    simp only [List.map_cons, List.nodup_cons] at hnd
    obtain ⟨hk, hnd'⟩ := hnd
    have hstep : applyChanges c ((k, v) :: rest) = applyChanges (applyChange c (k, v)) rest := rfl
    rw [hstep, ih (applyChange c (k, v)) hnd', List.lookup_cons]
    by_cases hkn : k = "name"
    · subst hkn
      have hnone : rest.lookup "name" = none := by
        rw [List.lookup_eq_none_iff]
        intro p hp
        have hmem : p.1 ∈ rest.map Prod.fst := List.mem_map_of_mem Prod.fst hp
        simp only [bne_iff_ne, ne_eq]
        intro hEq
        apply hk
        rw [hEq]
        exact hmem
      rw [hnone]
      simp [applyChange]
    · have hb : ("name" == k) = false := by
        simpa using fun hEq => hkn hEq.symm
      rw [hb]
      rw [applyChange_name_of_ne c (k, v) hkn]

theorem applyChanges_lookup_email (ups : List (String × String)) (c : Customer)
    (hnd : (ups.map Prod.fst).Nodup) :
    (applyChanges c ups).email = (ups.lookup "email").getD c.email := by
  revert hnd
  induction ups generalizing c with
  | nil => intro _; rfl
  | cons kv rest ih =>
    intro hnd
    obtain ⟨k, v⟩ := kv
    simp only [List.map_cons, List.nodup_cons] at hnd
    obtain ⟨hk, hnd'⟩ := hnd
    have hstep : applyChanges c ((k, v) :: rest) = applyChanges (applyChange c (k, v)) rest := rfl
    rw [hstep, ih (applyChange c (k, v)) hnd', List.lookup_cons]
    by_cases hkn : k = "email"
    · subst hkn
      have hnone : rest.lookup "email" = none := by
        rw [List.lookup_eq_none_iff]
        intro p hp
        have hmem : p.1 ∈ rest.map Prod.fst := List.mem_map_of_mem Prod.fst hp
        simp only [bne_iff_ne, ne_eq]
        intro hEq
        apply hk
        rw [hEq]
        exact hmem
      rw [hnone]
      simp [applyChange]
    · have hb : ("email" == k) = false := by
        simpa using fun hEq => hkn hEq.symm
      rw [hb]
      rw [applyChange_email_of_ne c (k, v) hkn]

theorem applyChanges_lookup_status (ups : List (String × String)) (c : Customer)
    (hnd : (ups.map Prod.fst).Nodup) :
    (applyChanges c ups).status = (ups.lookup "status").getD c.status := by
  revert hnd
  induction ups generalizing c with
  | nil => intro _; rfl
  | cons kv rest ih =>
    intro hnd
    obtain ⟨k, v⟩ := kv
    simp only [List.map_cons, List.nodup_cons] at hnd
    obtain ⟨hk, hnd'⟩ := hnd
    have hstep : applyChanges c ((k, v) :: rest) = applyChanges (applyChange c (k, v)) rest := rfl
    rw [hstep, ih (applyChange c (k, v)) hnd', List.lookup_cons]
    by_cases hkn : k = "status"
    · subst hkn
      have hnone : rest.lookup "status" = none := by
        rw [List.lookup_eq_none_iff]
        intro p hp
        have hmem : p.1 ∈ rest.map Prod.fst := List.mem_map_of_mem Prod.fst hp
        simp only [bne_iff_ne, ne_eq]
        intro hEq
        apply hk
        rw [hEq]
        exact hmem
      rw [hnone]
      simp [applyChange]
    · have hb : ("status" == k) = false := by
        simpa using fun hEq => hkn hEq.symm
      rw [hb]
      rw [applyChange_status_of_ne c (k, v) hkn]

theorem call_tool_update_eq (db : DB) (cid : Int) (fields : List (String × Value)) :
    call_tool db (updReq cid fields) =
      (match modify_customer db cid fields with
       | .error e => ([], .error e)
       | .ok (none, _) => ([], .error (.http 404 "Customer not found for update"))
       | .ok (some updated, db') =>
         ([{ type := "update", tool := "update_customer", customer_id := some updated.id }],
          .ok (.customer updated, db'))) := by
  cases fields with
  | nil => rfl
  | cons kv rest => rfl

theorem modify_customer_filter (db : DB) (cid : Int) (fields : List (String × Value)) :
    modify_customer db cid (fields.filter (fun kv => allowedField kv.1)) =
      modify_customer db cid fields := by
  unfold modify_customer
  rw [List.filter_filter]
  have h : (fun a : String × Value => allowedField a.1 && allowedField a.1) =
      (fun a : String × Value => allowedField a.1) := by
    funext a
    exact Bool.and_self _
  rw [h]

theorem get_customer_map_update (db : DB) (cid : Int) (ups : List (String × String))
    (old : Customer) (hsome : db.customers.find? (fun c => c.id == cid) = some old) :
    (db.customers.map (fun c => if c.id == cid then applyChanges c ups else c)).find?
      (fun c => c.id == cid) = some (applyChanges old ups) := by
  rw [List.find?_map]
  have hpred : ((fun c : Customer => c.id == cid) ∘
      (fun c => if c.id == cid then applyChanges c ups else c)) =
      (fun c : Customer => c.id == cid) := by
    funext c
    by_cases h : (c.id == cid) = true
    · simp only [Function.comp_apply, if_pos h]
      rw [show (applyChanges c ups).id = c.id from (applyChanges_id ups c).1]
    · simp only [Function.comp_apply, if_neg h]
  rw [hpred, hsome]
  have hid : old.id = cid := by simpa using List.find?_some hsome
  simp [hid]

/-- C4: `update_customer` (i) ignores unrecognized fields — the outcome is
identical to the same call with `data` filtered to `name`/`email`/`status`;
(ii) fails with the 404 `NotFound` error for an absent customer id (the
existence check runs before parameter binding); (iii) succeeds and returns
the original record unchanged when `data` has no recognized field; (iv)
when every recognized value binds to non-NULL text (`bindUpdates`),
succeeds and returns the stored record whose `name`/`email`/`status` are
exactly the bound TEXT-affinity texts of the supplied values — defaulting
to the old values — with `id` and `created_at` untouched; and (v) when a
recognized value of an existing customer fails binding (dict) or the
NOT NULL constraint (null), the call fails with that sqlite3 error and no
event. -/
theorem c4_update_customer_fields (db : DB) (cid : Int) (fields : List (String × Value)) :
    (call_tool db (updReq cid fields) =
      call_tool db (updReq cid (fields.filter (fun kv => allowedField kv.1)))) ∧
    (get_customer db cid = none →
      call_tool db (updReq cid fields) =
        ([], .error (.http 404 "Customer not found for update"))) ∧
    (∀ old, get_customer db cid = some old →
      fields.filter (fun kv => allowedField kv.1) = [] →
      call_tool db (updReq cid fields) =
        ([{ type := "update", tool := "update_customer", customer_id := some old.id }],
         .ok (.customer old, db))) ∧
    (∀ old bound, get_customer db cid = some old →
      bindUpdates (fields.filter (fun kv => allowedField kv.1)) = .ok bound →
      (bound.map Prod.fst).Nodup →
      ∃ c' db', call_tool db (updReq cid fields) =
          ([{ type := "update", tool := "update_customer", customer_id := some c'.id }],
           .ok (.customer c', db')) ∧
        c'.id = old.id ∧ c'.created_at = old.created_at ∧
        c'.name = (bound.lookup "name").getD old.name ∧
        c'.email = (bound.lookup "email").getD old.email ∧
        c'.status = (bound.lookup "status").getD old.status) ∧
    (∀ old e, get_customer db cid = some old →
      bindUpdates (fields.filter (fun kv => allowedField kv.1)) = .error e →
      call_tool db (updReq cid fields) = ([], .error e)) := by
  refine ⟨?_, ?_, ?_, ?_, ?_⟩
  · rw [call_tool_update_eq, call_tool_update_eq, modify_customer_filter]
  · intro hnone
    rw [call_tool_update_eq]
    unfold modify_customer get_customer
    dsimp only
    by_cases hemp : (fields.filter (fun kv => allowedField kv.1)).isEmpty = true
    · have hfind : db.customers.find? (fun c => c.id == cid) = none := hnone
      simp [hemp, hfind]
    · have hfind : db.customers.find? (fun c => c.id == cid) = none := hnone
      simp [hemp, hfind]
  · intro old hsome hflt
    rw [call_tool_update_eq]
    unfold modify_customer get_customer
    dsimp only
    have hfind : db.customers.find? (fun c => c.id == cid) = some old := hsome
    simp [hflt, hfind]
  · intro old bound hsome hbind hnd
    have hfind : db.customers.find? (fun c => c.id == cid) = some old := hsome
    by_cases hemp : (fields.filter (fun kv => allowedField kv.1)).isEmpty = true
    · have hnil : fields.filter (fun kv => allowedField kv.1) = [] :=
        List.isEmpty_iff.mp hemp
      rw [hnil] at hbind
      have hb0 : bound = [] := by
        simpa [bindUpdates, bindParams, execNotNull] using hbind.symm
      refine ⟨old, db, ?_, rfl, rfl, ?_, ?_, ?_⟩
      · rw [call_tool_update_eq]
        unfold modify_customer get_customer
        dsimp only
        simp [hnil, hfind]
      all_goals rw [hb0]; rfl
    · refine ⟨applyChanges old bound, updatedDB db cid bound,
        ?_, (applyChanges_id _ old).1, (applyChanges_id _ old).2,
        applyChanges_lookup_name _ old hnd, applyChanges_lookup_email _ old hnd,
        applyChanges_lookup_status _ old hnd⟩
      rw [call_tool_update_eq]
      unfold modify_customer get_customer
      dsimp only
      rw [if_neg hemp, hfind]
      dsimp only
      rw [hbind]
      dsimp only
      rw [get_customer_map_update db cid bound old hfind]
      dsimp only [updatedDB]
  · intro old e hsome hbind
    have hfind : db.customers.find? (fun c => c.id == cid) = some old := hsome
    have hne : fields.filter (fun kv => allowedField kv.1) ≠ [] := by
      intro h
      rw [h] at hbind
      simp [bindUpdates, bindParams, execNotNull] at hbind
    rw [call_tool_update_eq]
    unfold modify_customer get_customer
    dsimp only
    by_cases hemp : (fields.filter (fun kv => allowedField kv.1)).isEmpty = true
    · exact absurd (List.isEmpty_iff.mp hemp) hne
    · rw [if_neg hemp, hfind]
      dsimp only
      rw [hbind]

theorem c4_update_customer_fields_witness :
    ∃ c' db',
      call_tool db0
          (updReq 1 [("name", .vstr "Ana B"), ("email", .vint 7), ("role", .vstr "admin")]) =
        ([{ type := "update", tool := "update_customer", customer_id := some c'.id }],
         .ok (.customer c', db')) ∧
      c'.id = ana.id ∧ c'.created_at = ana.created_at ∧
      c'.name = (([("name", "Ana B"), ("email", "7")] :
        List (String × String)).lookup "name").getD ana.name ∧
      c'.email = (([("name", "Ana B"), ("email", "7")] :
        List (String × String)).lookup "email").getD ana.email ∧
      c'.status = (([("name", "Ana B"), ("email", "7")] :
        List (String × String)).lookup "status").getD ana.status :=
  (c4_update_customer_fields db0 1
      [("name", .vstr "Ana B"), ("email", .vint 7), ("role", .vstr "admin")]).2.2.2.1
    ana [("name", "Ana B"), ("email", "7")] rfl rfl (by decide)

/-! ## C3: argument validation -/

/-- Looking a key up past an appended entry with a different key is
unchanged. -/
theorem lookup_append_single (args : List (String × Value)) (k k' : String) (v : Value)
    (h : k' ≠ k) : (args ++ [(k, v)]).lookup k' = args.lookup k' := by
  rw [List.lookup_append]
  have hb : (k' == k) = false := by simpa using h
  have hone : ([(k, v)] : List (String × Value)).lookup k' = none := by
    simp [List.lookup_cons, hb]
  rw [hone, Option.or_none]

/-- C3 (counterexample): the invocation of `create_ticket` without its
required argument `issue` does not fail with any client error — it
succeeds, storing the Python string `"None"` as the issue text.  This
refutes the claim that a missing required argument always fails with
`InvalidArgument`. -/
theorem c3_counterexample_missing_required_succeeds :
    call_tool db0 ⟨"create_ticket", [("customer_id", .vint 1), ("priority", .vstr "high")]⟩ =
      ([{ type := "ticket", tool := "create_ticket", ticket_id := some 1 }],
       .ok (.ticket { id := 1, customer_id := 1, issue := "None", priority := "high",
                      status := "open", created_at := "2024-06-01 12:00:00" },
            { customers := [ana],
              tickets := [{ id := 1, customer_id := 1, issue := "None", priority := "high",
                            status := "open", created_at := "2024-06-01 12:00:00" }],
              interactions := [], nextTicketId := 2, now := "2024-06-01 12:00:00" })) := by
  rfl

/-- C3 (amended): the dispatcher performs no schema validation.  Integer
arguments go through Python `int()`: a missing one raises `TypeError` and a
non-numeric one raises `ValueError` (uncaught exceptions, not a structured
client error naming the field).  String arguments go through `str()` and
never fail — a missing one becomes the literal string `"None"`.  Unknown
extra arguments are ignored and never cause rejection. -/
theorem c3_amended_no_schema_validation :
    (∀ (db : DB) (name : String) (args : List (String × Value)) (k : String) (v : Value),
      k ∉ ["customer_id", "limit", "status", "data", "issue", "priority"] →
      call_tool db { name := name, arguments := args ++ [(k, v)] } =
        call_tool db { name := name, arguments := args }) ∧
    (∀ (db : DB) (args : List (String × Value)), args.lookup "customer_id" = none →
      call_tool db { name := "get_customer", arguments := args } =
        ([], .error (.typeError "int() argument cannot be NoneType"))) ∧
    (∀ (db : DB) (args : List (String × Value)) (s : String),
      args.lookup "customer_id" = some (.vstr s) → pyParseInt s = none →
      call_tool db { name := "get_customer", arguments := args } =
        ([], .error (.valueError ("invalid literal for int() with base 10: " ++ s)))) ∧
    (∀ (db : DB) (cid : Int), (db.customers.any (fun c => c.id == cid)) = true →
      ∃ t db', call_tool db ⟨"create_ticket", [("customer_id", .vint cid)]⟩ =
        ([{ type := "ticket", tool := "create_ticket", ticket_id := some t.id }],
         .ok (.ticket t, db')) ∧ t.issue = "None" ∧ t.priority = "None") := by
  refine ⟨?_, ?_, ?_, ?_⟩
  · intro db name args k v hk
    simp only [List.mem_cons, List.not_mem_nil, or_false, not_or] at hk
    obtain ⟨h1, h2, h3, h4, h5, h6⟩ := hk
    have e1 : getArg (args ++ [(k, v)]) "customer_id" = getArg args "customer_id" := by
      simp [getArg, lookup_append_single args k "customer_id" v (fun hEq => h1 hEq.symm)]
    have e2 : getArgD (args ++ [(k, v)]) "limit" (.vint 20) = getArgD args "limit" (.vint 20) := by
      simp [getArgD, lookup_append_single args k "limit" v (fun hEq => h2 hEq.symm)]
    have e3 : getArg (args ++ [(k, v)]) "status" = getArg args "status" := by
      simp [getArg, lookup_append_single args k "status" v (fun hEq => h3 hEq.symm)]
    have e4 : getArg (args ++ [(k, v)]) "data" = getArg args "data" := by
      simp [getArg, lookup_append_single args k "data" v (fun hEq => h4 hEq.symm)]
    have e5 : getArg (args ++ [(k, v)]) "issue" = getArg args "issue" := by
      simp [getArg, lookup_append_single args k "issue" v (fun hEq => h5 hEq.symm)]
    have e6 : getArg (args ++ [(k, v)]) "priority" = getArg args "priority" := by
      simp [getArg, lookup_append_single args k "priority" v (fun hEq => h6 hEq.symm)]
    unfold call_tool
    dsimp only
    rw [e1, e2, e3, e4, e5, e6]
  · intro db args h
    have hv : getArg args "customer_id" = .vnull := by
      simp [getArg, h]
    unfold call_tool
    dsimp only
    rw [if_pos (by decide), hv]
    rfl
  · intro db args s h hs
    have hv : getArg args "customer_id" = .vstr s := by
      simp [getArg, h]
    unfold call_tool
    dsimp only
    rw [if_pos (by decide), hv]
    dsimp only [pyInt]
    rw [hs]
  · intro db cid hex
    refine ⟨⟨db.nextTicketId, cid, "None", "None", "open", db.now⟩,
      ⟨db.customers, db.tickets ++ [⟨db.nextTicketId, cid, "None", "None", "open", db.now⟩],
        db.interactions, db.nextTicketId + 1, db.now⟩, ?_, rfl, rfl⟩
    unfold call_tool new_ticket
    dsimp only
    rw [if_neg (by decide), if_neg (by decide), if_neg (by decide), if_pos (by decide)]
    rw [show pyInt (getArg [("customer_id", Value.vint cid)] "customer_id") =
      Except.ok cid from rfl]
    dsimp only
    rw [if_pos hex]
    rfl

theorem c3_amended_no_schema_validation_witness :
    (call_tool db0
        ⟨"get_customer", [("customer_id", .vint 1)] ++ [("verbose", .vbool true)]⟩ =
      call_tool db0 ⟨"get_customer", [("customer_id", .vint 1)]⟩) ∧
    (call_tool db0 { name := "get_customer", arguments := [] } =
      ([], .error (.typeError "int() argument cannot be NoneType"))) ∧
    (call_tool db0 { name := "get_customer", arguments := [("customer_id", .vstr "abc")] } =
      ([], .error (.valueError ("invalid literal for int() with base 10: " ++ "abc")))) ∧
    (∃ t db', call_tool db0 ⟨"create_ticket", [("customer_id", .vint 1)]⟩ =
      ([{ type := "ticket", tool := "create_ticket", ticket_id := some t.id }],
       .ok (.ticket t, db')) ∧ t.issue = "None" ∧ t.priority = "None") :=
  ⟨c3_amended_no_schema_validation.1 db0 "get_customer" [("customer_id", .vint 1)]
      "verbose" (.vbool true) (by decide),
   c3_amended_no_schema_validation.2.1 db0 [] rfl,
   c3_amended_no_schema_validation.2.2.1 db0 [("customer_id", .vstr "abc")] "abc" rfl (by decide),
   c3_amended_no_schema_validation.2.2.2 db0 1 (by decide)⟩
